import Mathlib

set_option maxRecDepth 10000

/-!
Shallow embedding of the `merit` client library (src/merit/org.py, src/merit/merit.py,
src/merit/exceptions.py) and proofs about its token lifecycle, pagination loop,
validation, and error handling.

HTTP transports are modelled as explicit data: list endpoints consume a finite list of
responses (one per call, in order); the token-refresh endpoint is a function from the
call index to a response.  Raised Python exceptions are modelled with `Except`.
Timestamps are integers counting seconds.
-/

namespace Merit

/-- The Python exceptions the library can raise: the three classes of
src/merit/exceptions.py plus the builtin TypeError and AttributeError. -/
inductive PyExc where
  | typeError
  | attributeError
  | meritStatusError
  | searchQueryError
  | requestedPermissionError
deriving DecidableEq

/-- Python truthiness of an optional string: `None` and `""` are falsy. -/
def pyTruthy : Option String → Bool
  | none => false
  | some s => !s.isEmpty

/-! ## Pagination model (Org.get_all_merits / Org.get_member_merits) -/

/-- The `paging.pageInfo` JSON object: `hasNextPage` may be absent. -/
structure PageData where
  hasNextPage : Option Bool
deriving DecidableEq

/-- The `paging.cursors` JSON object: `after` may be absent. -/
structure Cursors where
  after : Option String
deriving DecidableEq

/-- The `paging` JSON object: either sub-object may be absent. -/
structure Paging where
  pageData : Option PageData
  cursors : Option Cursors
deriving DecidableEq

/-- JSON body of one page of a list endpoint: the `merits` array and the `paging`
object, each possibly absent (the code reads both through `dict.get` with defaults). -/
structure ListBody (α : Type) where
  merits : Option (List α)
  paging : Option Paging
deriving DecidableEq

/-- One transport response to a list-endpoint call. -/
structure ListResponse (α : Type) where
  status_code : Int
  body : ListBody α
deriving DecidableEq

/-- Reads `data.get("merits", [])`. -/
def ListBody.meritsList {α : Type} (d : ListBody α) : List α := d.merits.getD []

/-- Reads `data.get("paging", {}).get("pageInfo", {}).get("hasNextPage", False)`. -/
def ListBody.nextPage {α : Type} (d : ListBody α) : Bool :=
  ((d.paging.getD ⟨none, none⟩).pageData.getD ⟨none⟩).hasNextPage.getD false

/-- Reads `data.get("paging", {}).get("cursors", {}).get("after", "")`. -/
def ListBody.afterCursor {α : Type} (d : ListBody α) : String :=
  ((d.paging.getD ⟨none, none⟩).cursors.getD ⟨none⟩).after.getD ""

/-- The query-parameter dict sent with each list call (`params` in the source). -/
structure ListParams where
  limit : Int
  merit_status : Option String
  merittemplate_id : Option String
  recipient_email : Option String
  starting_after : Option String
deriving DecidableEq

/-- The `while next_page:` loop shared verbatim by `Org.get_all_merits`
(org.py lines 469-493) and `Org.get_member_merits` (org.py lines 264-290).
Returns the accumulated merits together with the params of every call made,
or `none` if the finite transport ran out of responses while the loop was
still running.  One response is consumed per call. -/
def paginate {α : Type} (limit : Int) :
    List (ListResponse α) → ListParams → List α → Option (List α × List ListParams)
  | [], _, _ => none
  | r :: rest, p, acc =>
    if r.status_code = 200 then
      let acc2 := acc ++ r.body.meritsList
      if limit ≤ (acc2.length : Int) then some (acc2, [p])
      else
        let p2 : ListParams := { p with starting_after := some r.body.afterCursor }
        if r.body.nextPage then
          match paginate limit rest p2 acc2 with
          | none => none
          | some (res, calls) => some (res, p :: calls)
        else some (acc2, [p])
    else some (acc, [p])

/-- The fixed 11-value merit-status enum of `Org.get_all_merits` (org.py line 453). -/
def valid_statuses : List String :=
  ["Accepted", "Forfeited", "Pending", "Rejected", "Reported", "Revoked",
   "Transferred", "TransferredUnverified", "Unapproved", "UnapprovedUnverified", "Unverified"]

/-- Embeds `Org.get_all_merits` (org.py lines 436-493): validates `merit_status` (only when
truthy), builds the params dict, then runs the pagination loop over the transport. -/
def get_all_merits {α : Type} (template_id merit_status email : Option String) (limit : Int)
    (transport : List (ListResponse α)) :
    Except PyExc (Option (List α × List ListParams)) :=
  if pyTruthy merit_status && !(valid_statuses.contains (merit_status.getD "")) then
    .error .meritStatusError
  else
    let params : ListParams :=
      { limit := limit,
        merit_status := if pyTruthy merit_status then merit_status else none,
        merittemplate_id := if pyTruthy template_id then template_id else none,
        recipient_email := if pyTruthy email then email else none,
        starting_after := none }
    .ok (paginate limit transport params [])

/-- Embeds `Org.get_member_merits` (org.py lines 238-290): builds the params dict
(member_id only selects the URL path) and runs the same pagination loop. -/
def get_member_merits {α : Type} (member_id : String) (template_id : Option String)
    (limit : Int) (transport : List (ListResponse α)) :
    Option (List α × List ListParams) :=
  let params : ListParams :=
    { limit := limit,
      merit_status := none,
      merittemplate_id := if pyTruthy template_id then template_id else none,
      recipient_email := none,
      starting_after := none }
  paginate limit transport params []

/-! ## Token lifecycle (Org.__init__ / get_org_access_token / authenticate / get_api) -/

/-- Models `self.auth_timeout = 3600` seconds (org.py line 41). -/
def auth_timeout : Int := 3600

/-- Transport response to `POST /orgs/{org_id}/access`; the body's
`orgAccessToken` field may be absent. -/
structure AccessResponse where
  status_code : Int
  orgAccessToken : Option String
deriving DecidableEq

/-- Mutable token state of an `Org` instance:
`self.org_access_token` and `self.authenticated_at`. -/
structure OrgState where
  org_access_token : Option String
  authenticated_at : Option Int
deriving DecidableEq

/-- Result of running an authentication step: the new state, the list of
token-refresh endpoints POSTed (in order), and the next transport call index. -/
structure AuthTrace where
  state : OrgState
  posts : List String
  next_call : Nat
deriving DecidableEq

/-- The token-refresh endpoint `f"{self.domain}/orgs/{self.org_id}/access"`. -/
def accessPath (org_id : String) : String := "/orgs/" ++ org_id ++ "/access"

/-- Embeds `Org.get_org_access_token` (org.py lines 46-59): POST the access endpoint;
on 200 set `authenticated_at` to now and `org_access_token` to the body's
`orgAccessToken` and return that value; otherwise log and return `None`,
leaving the state untouched. -/
def get_org_access_token (org_id : String) (now : Int) (transport : Nat → AccessResponse)
    (k : Nat) (s : OrgState) : AuthTrace × Option String :=
  let resp := transport k
  if resp.status_code = 200 then
    (⟨⟨resp.orgAccessToken, some now⟩, [accessPath org_id], k + 1⟩, resp.orgAccessToken)
  else
    (⟨s, [accessPath org_id], k + 1⟩, none)

/-- Embeds `Org.authenticate` (org.py lines 62-68): refresh when the token is falsy,
then compare `self.authenticated_at < now - auth_timeout` and refresh when stale.
When `authenticated_at` is `None` that comparison is `None < datetime`, which
raises `TypeError` in Python 3. -/
def authenticate (org_id : String) (now : Int) (transport : Nat → AccessResponse)
    (k : Nat) (s : OrgState) : Except PyExc AuthTrace :=
  let a1 : AuthTrace :=
    if !(pyTruthy s.org_access_token) then (get_org_access_token org_id now transport k s).1
    else ⟨s, [], k⟩
  match a1.state.authenticated_at with
  | none => .error .typeError
  | some t =>
    if t < now - auth_timeout then
      let a2 := (get_org_access_token org_id now transport a1.next_call a1.state).1
      .ok ⟨a2.state, a1.posts ++ a2.posts, a2.next_call⟩
    else .ok a1

/-- A domain-endpoint transport response (only the status code is interpreted
by the generic helpers). -/
structure ApiResponse where
  status_code : Int
deriving DecidableEq

/-- Embeds `Org.get_api` and `Org.post_api` (org.py lines 71-116): run `authenticate`,
then issue the domain request and return the raw response whatever its status. -/
def get_api (org_id : String) (now : Int) (transport : Nat → AccessResponse) (k : Nat)
    (s : OrgState) (resp : ApiResponse) : Except PyExc (ApiResponse × AuthTrace) :=
  match authenticate org_id now transport k s with
  | .error e => .error e
  | .ok a => .ok (resp, a)

/-- Embeds `Org.__init__` (org.py lines 30-43): set `authenticated_at = None`, then
`self.org_access_token = self.get_org_access_token()` (the returned value,
`None` on failure, overwrites whatever the call itself stored). -/
def org_init (org_id : String) (now : Int) (transport : Nat → AccessResponse) : AuthTrace :=
  let s0 : OrgState := ⟨none, none⟩
  let r := get_org_access_token org_id now transport 0 s0
  ⟨⟨r.2, r.1.state.authenticated_at⟩, r.1.posts, r.1.next_call⟩

/-! ## Template / field domain methods (C5, C9) -/

/-- One element of a template's `enabledFieldSettings` array. -/
structure FieldSetting where
  fieldId : Option String
deriving DecidableEq

/-- JSON body of `GET /merittemplates/{id}`. -/
structure TemplateBody where
  enabledFieldSettings : Option (List FieldSetting)
deriving DecidableEq

/-- Transport response for `GET /merittemplates/{id}`. -/
structure TemplateResponse where
  status_code : Int
  body : TemplateBody
deriving DecidableEq

/-- Transport response for `GET /fields/{id}`; the body is kept opaque. -/
structure FieldResponse where
  status_code : Int
  body : String
deriving DecidableEq

/-- Embeds `Org.get_merit_template` (org.py lines 392-406): the JSON body on 200, else `None`. -/
def get_merit_template (resp : TemplateResponse) : Option TemplateBody :=
  if resp.status_code = 200 then some resp.body else none

/-- Embeds `Org.get_field` (org.py lines 349-363): the JSON body on 200, else `None`. -/
def get_field (resp : FieldResponse) : Option String :=
  if resp.status_code = 200 then some resp.body else none

/-- Embeds `Org.get_template_field_choices` (org.py lines 409-417):
`[self.get_field(f.get("fieldId")) for f in self.get_merit_template(tid).get("enabledFieldSettings")]`.
When `get_merit_template` returns `None`, `.get` on it raises `AttributeError`;
when `enabledFieldSettings` is absent, iterating `None` raises `TypeError`. -/
def get_template_field_choices (tmpl : TemplateResponse)
    (field_transport : Option String → FieldResponse) : Except PyExc (List (Option String)) :=
  match get_merit_template tmpl with
  | none => .error .attributeError
  | some body =>
    match body.enabledFieldSettings with
    | none => .error .typeError
    | some settings => .ok (settings.map (fun fs => get_field (field_transport fs.fieldId)))

/-- Embeds `Org.edit_merit` (org.py lines 545-560): `True` on 200, else log and `False`. -/
def edit_merit (resp : ApiResponse) : Bool :=
  if resp.status_code = 200 then true else false

/-! ## login_with_merit (C6, C7) -/

/-- A Python value passed in a list parameter: a string or a non-string
(represented by an integer payload). -/
inductive PyVal where
  | str (s : String)
  | int (n : Int)
deriving DecidableEq

/-- The `valid_permissions` list (org.py line 133). -/
def valid_permissions : List String :=
  ["CanViewPublicProfile", "CanViewAllStandardMeritsFromOrg", "CanViewAllStandardMerits"]

/-- One entry of the outgoing `requestedPermissions` array. -/
structure PermissionEntry where
  permissionType : String
  orgId : Option String
deriving DecidableEq

/-- The JSON body POSTed by `login_with_merit`. -/
structure LoginBody where
  requestedPermissions : List PermissionEntry
  successUrl : String
  failureUrl : String
  state : String
deriving DecidableEq

/-- Transport response for `POST /orgs/{org_id}/request_loginwithmerit_url`. -/
structure LoginResponse where
  status_code : Int
  request_loginwithmerit_url : Option String
deriving DecidableEq

/-- The `for permission in permissions` validation loop (org.py lines 137-143):
a non-string element raises `TypeError`, a string outside `valid_permissions`
raises `RequestedPermissionException`, and each valid element appends
`{"permissionType": permission}`. -/
def validate_permissions : List PyVal → Except PyExc (List PermissionEntry)
  | [] => .ok []
  | .int _ :: _ => .error .typeError
  | .str s :: rest =>
    if valid_permissions.contains s then
      (validate_permissions rest).map (fun es => ⟨s, none⟩ :: es)
    else .error .requestedPermissionError

/-- The `for org_id in org_ids` loop (org.py lines 151-155): a non-string element
raises `TypeError`; each string appends
`{"permissionType": "CanViewAllStandardMeritsFromOrg", "orgId": org_id}`. -/
def validate_org_ids : List PyVal → Except PyExc (List PermissionEntry)
  | [] => .ok []
  | .int _ :: _ => .error .typeError
  | .str s :: rest =>
    (validate_org_ids rest).map (fun es => ⟨"CanViewAllStandardMeritsFromOrg", some s⟩ :: es)

/-- Embeds `Org.login_with_merit` (org.py lines 119-177): validate the permission list,
require truthy `org_ids` when `CanViewAllStandardMeritsFromOrg` was requested and
append one scoped entry per org id, build the request body, POST it, and return
the `request_loginwithmerit_url` field on a 200 response with a truthy url,
else `None`.  The result pairs the POSTed body with the returned value. -/
def login_with_merit (success_url failure_url : String) (permissions : List PyVal)
    (org_ids : Option (List PyVal)) (now_str : String) (resp : LoginResponse) :
    Except PyExc (LoginBody × Option String) := do
  let base ← validate_permissions permissions
  let extra ←
    if permissions.contains (.str "CanViewAllStandardMeritsFromOrg") then
      match org_ids with
      | none => Except.error PyExc.requestedPermissionError
      | some [] => Except.error PyExc.requestedPermissionError
      | some l => validate_org_ids l
    else Except.ok []
  let data : LoginBody :=
    ⟨base ++ extra, success_url, failure_url, "<3-from-merit-" ++ now_str⟩
  let ret : Option String :=
    if resp.status_code = 200 then
      match resp.request_loginwithmerit_url with
      | some u => if u.isEmpty then none else some u
      | none => none
    else none
  Except.ok (data, ret)

/-! ## search_orgs (C8) -/

/-- The query parameters sent to the search endpoint. -/
structure SearchRequest where
  limit : Int
  search_string : String
deriving DecidableEq

/-- Transport response for `GET /orgs/search`; `results` may be absent. -/
structure SearchResponse (α : Type) where
  status_code : Int
  results : Option (List α)
deriving DecidableEq

/-- Embeds `Org.search_orgs` (org.py lines 326-346): a query shorter than 3 characters
raises `SearchQueryException` before any call; otherwise GET `/orgs/search` with
`{"limit": 10, "search_string": query}` and return `results` on a 200 response
carrying that field, else `[]`.  The result records the path and params called. -/
def search_orgs {α : Type} (query : String) (resp : SearchResponse α) :
    Except PyExc (String × SearchRequest × List α) :=
  if query.length < 3 then .error .searchQueryError
  else
    .ok ("/orgs/search", ⟨10, query⟩,
      if resp.status_code = 200 then
        match resp.results with
        | some rs => rs
        | none => []
      else [])

/-! ## Merit-template choices (C9) -/

/-- One element of the `merittemplates` array. -/
structure TemplateItem where
  id : Option String
  title : Option String
deriving DecidableEq

/-- Transport response for `GET /orgs/{id}/merittemplates`; the
`merittemplates` field may be absent (read with `.get` and no default). -/
structure TemplatesResponse where
  status_code : Int
  merittemplates : Option (List TemplateItem)
deriving DecidableEq

/-- Embeds `Org.get_all_org_merit_templates` (org.py lines 366-378): on 200 return
`response.json().get("merittemplates")` (possibly `None`), else log and return `[]`. -/
def get_all_org_merit_templates (resp : TemplatesResponse) : Option (List TemplateItem) :=
  if resp.status_code = 200 then resp.merittemplates else some []

/-- Models Python `sorted(choices, key = lambda x: x[1])` on the raw title
values.  With at most one element the sort performs no comparison; with two or
more elements every element's key takes part in at least one `<` comparison
(CPython's sort compares each element while building runs and inserting), so an
absent (`None`) title is compared against `None` or a string and raises
TypeError; when every title is a string the list is sorted by title (the
`getD ""` below only extracts titles already known to be present). -/
def sorted_by_title (l : List (Option String × Option String)) :
    Except PyExc (List (Option String × Option String)) :=
  if l.length ≤ 1 then .ok l
  else if l.all (fun c => c.2.isSome) then
    .ok (l.mergeSort (fun a b => a.2.getD "" ≤ b.2.getD ""))
  else .error .typeError

/-- Embeds `Org.get_org_merit_template_choices` (org.py lines 381-389): build the
`(id, title)` pairs, sort them by title (raising TypeError when `sorted` compares
an absent title), optionally insert the `(None, "-----")` head entry -- and fall
off the end of the function body, so Python returns `None`.  Iterating a `None`
template listing raises `TypeError` first. -/
def get_org_merit_template_choices (resp : TemplatesResponse) (include_none : Bool) :
    Except PyExc (Option (List (Option String × Option String))) :=
  match get_all_org_merit_templates resp with
  | none => .error .typeError
  | some templates =>
    let choices := templates.map (fun t => (t.id, t.title))
    match sorted_by_title choices with
    | .error e => .error e
    | .ok choices2 =>
      let _final := if include_none then ((none, some "-----") :: choices2) else choices2
      .ok none

/-! ## Attribute table (C10) -/

/-- Every attribute name defined on `Org` instances: the methods and instance
attributes of `class Merit` (merit.py) and `class Org` (org.py). -/
def org_attributes : List String :=
  ["__init__", "link_with_merit", "get_org_id_from_token",
   "app_id", "app_secret", "domain", "org_id",
   "auth_timeout", "authenticated_at", "org_access_token",
   "get_org_access_token", "authenticate", "get_api", "post_api",
   "login_with_merit", "get_member_id_from_token", "get_member_info",
   "get_member_access_merit", "get_member_merits", "member_has_active_merit",
   "get_org_info", "search_orgs", "get_field", "get_all_org_merit_templates",
   "get_org_merit_template_choices", "get_merit_template", "get_template_field_choices",
   "get_merit", "get_all_merits", "get_template_pending_merits", "propose_merit",
   "send_merit", "edit_merit", "revoke_merit", "uuid_translation", "update_email"]

/-- Embeds `Org.get_template_pending_merits` (org.py lines 496-504):
`return self.get_all_org_merits(template_id, "Unapproved")`.  Python resolves the
attribute at call time; `get_all_org_merits` is defined nowhere on `Org` or `Merit`,
so the lookup raises `AttributeError` before any request is made (the `.ok` branch
is unreachable). -/
def get_template_pending_merits (template_id : String) : Except PyExc (List Nat) :=
  if org_attributes.contains "get_all_org_merits" then .ok []
  else .error .attributeError

/-! ## Supporting lemmas and concrete transports -/

/-- A concrete first page of 60 items with `hasNextPage = true` and cursor "cur1". -/
def page60A : ListResponse Nat :=
  ⟨200, ⟨some (List.range 60), some ⟨some ⟨some true⟩, some ⟨some "cur1"⟩⟩⟩⟩

/-- A concrete second page of 60 further items with `hasNextPage = false`. -/
def page60B : ListResponse Nat :=
  ⟨200, ⟨some ((List.range 60).map (· + 60)), some ⟨some ⟨some false⟩, some ⟨some "cur2"⟩⟩⟩⟩

/-- The initial params dict for a bare listing call with limit 100. -/
def paramsLimit100 : ListParams := ⟨100, none, none, none, none⟩

/-- The params dict of the second call: `starting_after` set to the first cursor. -/
def paramsLimit100Cur1 : ListParams := ⟨100, none, none, none, some "cur1"⟩

/-- Whenever the accumulator is still below the limit, a completed run of the
pagination loop overshoots the limit by less than one page: every page of the
transport holding at most `P` items bounds the result by `lim + P`. -/
theorem paginate_length_bound {α : Type} (lim P : Int) (tr : List (ListResponse α)) :
    ∀ (p : ListParams) (acc res : List α) (calls : List ListParams),
      (∀ q ∈ tr, ((q.body.meritsList.length : Int) ≤ P)) →
      (acc.length : Int) < lim →
      paginate lim tr p acc = some (res, calls) →
      (res.length : Int) < lim + P := by
  induction tr with
  | nil =>
    intro p acc res calls hP hacc heq
    simp [paginate] at heq
  | cons r rest ih =>
    intro p acc res calls hP hacc heq
    have hr : ((r.body.meritsList.length : Int)) ≤ P := hP r (by simp)
    have hrest : ∀ q ∈ rest, ((q.body.meritsList.length : Int) ≤ P) :=
      fun q hq => hP q (by simp [hq])
    have hlen : ((acc ++ r.body.meritsList).length : Int)
        = (acc.length : Int) + (r.body.meritsList.length : Int) := by
      rw [List.length_append]
      push_cast
      ring
    simp only [paginate] at heq
    split at heq
    · split at heq
      · cases heq
        omega
      · split at heq
        · split at heq
          · exact absurd heq (by simp)
          · rename_i res2 calls2 hrec
            cases heq
            exact ih _ _ _ _ hrest (by omega) hrec
        · cases heq
          omega
    · cases heq
      omega

/-! ## Claim theorems -/

/-- C1: for every call to get_all_merits or get_member_merits with an integer limit
and every sequence of transport responses, the pagination loop: returns the items
accumulated so far on a non-200 response; on a 200 response appends the page's
merits and stops with the whole accumulator once its length reaches the limit
(overshooting by less than one page); otherwise continues exactly when
`paging.pageInfo.hasNextPage` is true (false when absent), passing
`paging.cursors.after` as the `starting_after` param of the next call; and with
limit 100 and successive pages of 60 and 60 items both entry points return all
120 items after exactly two calls. -/
theorem C1_pagination_loop :
    (∀ (α : Type) (lim : Int) (r : ListResponse α) (rest : List (ListResponse α))
        (p : ListParams) (acc : List α),
      ¬ r.status_code = 200 → paginate lim (r :: rest) p acc = some (acc, [p])) ∧
    (∀ (α : Type) (lim : Int) (r : ListResponse α) (rest : List (ListResponse α))
        (p : ListParams) (acc : List α),
      r.status_code = 200 → lim ≤ ((acc ++ r.body.meritsList).length : Int) →
      paginate lim (r :: rest) p acc = some (acc ++ r.body.meritsList, [p])) ∧
    (∀ (α : Type) (lim : Int) (r : ListResponse α) (rest : List (ListResponse α))
        (p : ListParams) (acc : List α),
      r.status_code = 200 → ((acc ++ r.body.meritsList).length : Int) < lim →
      r.body.nextPage = true →
      paginate lim (r :: rest) p acc =
        (paginate lim rest { p with starting_after := some r.body.afterCursor }
          (acc ++ r.body.meritsList)).map (fun x => (x.1, p :: x.2))) ∧
    (∀ (α : Type) (lim : Int) (r : ListResponse α) (rest : List (ListResponse α))
        (p : ListParams) (acc : List α),
      r.status_code = 200 → ((acc ++ r.body.meritsList).length : Int) < lim →
      r.body.nextPage = false →
      paginate lim (r :: rest) p acc = some (acc ++ r.body.meritsList, [p])) ∧
    (∀ (α : Type) (b : ListBody α), b.paging = none → b.nextPage = false) ∧
    (∀ (α : Type) (lim P : Int) (tr : List (ListResponse α)) (p : ListParams)
        (acc res : List α) (calls : List ListParams),
      (∀ q ∈ tr, ((q.body.meritsList.length : Int) ≤ P)) →
      (acc.length : Int) < lim →
      paginate lim tr p acc = some (res, calls) →
      (res.length : Int) < lim + P) ∧
    (get_all_merits (α := Nat) none none none 100 [page60A, page60B]
      = .ok (some (List.range 120, [paramsLimit100, paramsLimit100Cur1]))) ∧
    (get_member_merits (α := Nat) "member1" none 100 [page60A, page60B]
      = some (List.range 120, [paramsLimit100, paramsLimit100Cur1])) := by
  refine ⟨?_, ?_, ?_, ?_, ?_, ?_, ?_, ?_⟩
  · intro α lim r rest p acc h200
    simp [paginate, h200]
  · intro α lim r rest p acc h200 hle
    simp only [paginate, h200, eq_self_iff_true, if_true]
    rw [if_pos hle]
  · intro α lim r rest p acc h200 hlt hnext
    have hnle : ¬ lim ≤ ((acc ++ r.body.meritsList).length : Int) := not_le.mpr hlt
    simp only [paginate, h200, hnext, eq_self_iff_true, if_true]
    rw [if_neg hnle]
    cases hrec : paginate lim rest { p with starting_after := some r.body.afterCursor }
        (acc ++ r.body.meritsList) with
    | none => simp
    | some v => simp
  · intro α lim r rest p acc h200 hlt hnext
    have hnle : ¬ lim ≤ ((acc ++ r.body.meritsList).length : Int) := not_le.mpr hlt
    simp only [paginate, h200, hnext, eq_self_iff_true, if_true]
    rw [if_neg hnle]
    simp
  · intro α b hb
    simp [ListBody.nextPage, hb]
  · intro α lim P tr p acc res calls hP hacc heq
    exact paginate_length_bound lim P tr p acc res calls hP hacc heq
  · rfl
  · rfl

/-- Witness for C1: the loop applied to a single failing (500) response returns
the empty accumulator after one call. -/
theorem C1_pagination_loop_witness :
    paginate (α := Nat) 100 [⟨500, ⟨none, none⟩⟩] paramsLimit100 []
      = some ([], [paramsLimit100]) :=
  C1_pagination_loop.1 Nat 100 ⟨500, ⟨none, none⟩⟩ [] paramsLimit100 [] (by decide)

/-- Both branches of a token refresh POST exactly one request to the access
endpoint and advance the transport index by one. -/
theorem get_org_access_token_probe (org_id : String) (now : Int)
    (transport : Nat → AccessResponse) (k : Nat) (s : OrgState) :
    (get_org_access_token org_id now transport k s).1.posts = [accessPath org_id] ∧
    (get_org_access_token org_id now transport k s).1.next_call = k + 1 := by
  by_cases h : (transport k).status_code = 200 <;>
    simp [get_org_access_token, h]

/-- C2: constructing an Org session issues exactly one token-refresh POST to
/orgs/{org_id}/access; a domain call made immediately after a successful
construction issues no additional refresh POST before its request; a domain call
made after ttl + 1 seconds (ttl fixed at 3600) have elapsed since
authenticated_at issues exactly one additional refresh POST before the domain
request. -/
theorem C2_token_refresh (org_id : String) (now : Int) (transport : Nat → AccessResponse)
    (tok : String) (h200 : (transport 0).status_code = 200)
    (htok : (transport 0).orgAccessToken = some tok) (hne : tok.isEmpty = false) :
    auth_timeout = 3600 ∧
    (org_init org_id now transport).posts = [accessPath org_id] ∧
    (∀ resp : ApiResponse,
      get_api org_id now transport (org_init org_id now transport).next_call
          (org_init org_id now transport).state resp
        = .ok (resp, ⟨(org_init org_id now transport).state, [],
            (org_init org_id now transport).next_call⟩)) ∧
    (∀ resp : ApiResponse, ∃ s2 : OrgState,
      get_api org_id (now + auth_timeout + 1) transport
          (org_init org_id now transport).next_call
          (org_init org_id now transport).state resp
        = .ok (resp, ⟨s2, [accessPath org_id],
            (org_init org_id now transport).next_call + 1⟩)) := by
  have hinit : org_init org_id now transport = ⟨⟨some tok, some now⟩, [accessPath org_id], 1⟩ := by
    simp [org_init, get_org_access_token, h200, htok]
  refine ⟨rfl, by rw [hinit], ?_, ?_⟩
  · intro resp
    have hfresh : ¬ now < now - auth_timeout := by
      unfold auth_timeout
      omega
    rw [hinit]
    simp [get_api, authenticate, pyTruthy, hne, hfresh]
  · intro resp
    have hstale : now < (now + auth_timeout + 1) - auth_timeout := by omega
    rw [hinit]
    by_cases h1 : (transport 1).status_code = 200
    · refine ⟨⟨(transport 1).orgAccessToken, some (now + auth_timeout + 1)⟩, ?_⟩
      simp [get_api, authenticate, pyTruthy, hne, hstale, get_org_access_token, h1]
    · refine ⟨⟨some tok, some now⟩, ?_⟩
      simp [get_api, authenticate, pyTruthy, hne, hstale, get_org_access_token, h1]

/-- Witness for C2: with a transport that always answers 200 and token "t",
construction POSTs the access endpoint exactly once. -/
theorem C2_token_refresh_witness :
    (org_init "o" 0 (fun _ => ⟨200, some "t"⟩)).posts = [accessPath "o"] :=
  (C2_token_refresh "o" 0 (fun _ => ⟨200, some "t"⟩) "t" rfl rfl rfl).2.1

/-- C3 (code bug): at the session state produced by a failed construction
(no token, `authenticated_at` unset), a further failing refresh response makes
`authenticate` raise TypeError (Python compares `None < datetime`), instead of
proceeding without raising as the spec describes. -/
theorem C3_authenticate_type_error :
    org_init "org1" 5 (fun _ => ⟨500, none⟩) = ⟨⟨none, none⟩, [accessPath "org1"], 1⟩ ∧
    authenticate "org1" 10 (fun _ => ⟨500, none⟩) 1 ⟨none, none⟩ = .error PyExc.typeError :=
  ⟨rfl, rfl⟩

/-- C4 counterexample: a non-200 refresh response on a session that already holds
a token does NOT leave `org_access_token` and `authenticated_at` absent -- it
leaves the old values in place. -/
theorem C4_counterexample :
    ¬ ((get_org_access_token "org1" 10 (fun _ => ⟨500, none⟩) 0
          ⟨some "tok", some 3⟩).1.state.org_access_token = none ∧
       (get_org_access_token "org1" 10 (fun _ => ⟨500, none⟩) 0
          ⟨some "tok", some 3⟩).1.state.authenticated_at = none) := by
  decide

/-- C4 (amended): on a 200 response the refresh sets `org_access_token` to the
body's `orgAccessToken` value and `authenticated_at` to the refresh time and
returns the token; on a non-200 response it returns `None` and leaves the whole
state unchanged (hence both fields stay absent exactly when they were absent,
as after a failed construction). -/
theorem C4_refresh_state (org_id : String) (now : Int) (transport : Nat → AccessResponse)
    (k : Nat) (s : OrgState) :
    ((transport k).status_code = 200 →
      (get_org_access_token org_id now transport k s).1.state
        = ⟨(transport k).orgAccessToken, some now⟩ ∧
      (get_org_access_token org_id now transport k s).2 = (transport k).orgAccessToken) ∧
    (¬ (transport k).status_code = 200 →
      (get_org_access_token org_id now transport k s).1.state = s ∧
      (get_org_access_token org_id now transport k s).2 = none) := by
  constructor <;> intro h <;> simp [get_org_access_token, h]

/-- Witness for C4 (amended): a concrete 200 refresh stores the returned token
and timestamp. -/
theorem C4_refresh_state_witness :
    (get_org_access_token "o" 7 (fun _ => ⟨200, some "t"⟩) 0 ⟨none, none⟩).1.state
      = ⟨some "t", some 7⟩ ∧
    (get_org_access_token "o" 7 (fun _ => ⟨200, some "t"⟩) 0 ⟨none, none⟩).2 = some "t" :=
  (C4_refresh_state "o" 7 (fun _ => ⟨200, some "t"⟩) 0 ⟨none, none⟩).1 rfl

/-- C5 (code bug): on a 500 response `get_merit_template` and `edit_merit` do
return their sentinels (`None`, `False`), but `get_template_field_choices` calls
`.get` on the `None` returned by `get_merit_template` and raises AttributeError
instead of returning a sentinel. -/
theorem C5_sentinel_on_500 :
    get_template_field_choices ⟨500, ⟨none⟩⟩ (fun _ => ⟨200, "field"⟩)
      = .error PyExc.attributeError ∧
    get_merit_template ⟨500, ⟨none⟩⟩ = none ∧
    edit_merit ⟨500⟩ = false :=
  ⟨rfl, rfl, rfl⟩

/-- A permission-list element the validation loop rejects: a non-string, or a
string outside `valid_permissions`. -/
def bad_perm : PyVal → Bool
  | .int _ => true
  | .str s => !valid_permissions.contains s

/-- The permission validation loop raises (TypeError or
RequestedPermissionException) whenever the list holds a rejected element. -/
theorem validate_permissions_error (perms : List PyVal) (p : PyVal)
    (hp : p ∈ perms) (hbad : bad_perm p = true) :
    ∃ e, (e = PyExc.typeError ∨ e = PyExc.requestedPermissionError) ∧
      validate_permissions perms = .error e := by
  induction perms with
  | nil => cases hp
  | cons q rest ih =>
    cases q with
    | int n => exact ⟨.typeError, Or.inl rfl, rfl⟩
    | str s =>
      by_cases hv : s ∈ valid_permissions
      · have hpr : p ∈ rest := by
          rcases List.mem_cons.mp hp with h | h
          · subst h
            simp [bad_perm, hv] at hbad
          · exact h
        obtain ⟨e, he, hvp⟩ := ih hpr
        exact ⟨e, he, by simp [validate_permissions, hv, hvp, Except.map]⟩
      · exact ⟨.requestedPermissionError, Or.inr rfl, by simp [validate_permissions, hv]⟩

/-- When the permission loop raises, `login_with_merit` propagates that error
before building a body or touching the transport: the outcome is the same for
every response. -/
theorem login_error_of_validate (su fu ns : String) (perms : List PyVal)
    (org_ids : Option (List PyVal)) (e : PyExc)
    (h : validate_permissions perms = .error e) :
    ∀ resp : LoginResponse, login_with_merit su fu perms org_ids ns resp = .error e := by
  intro resp
  simp [login_with_merit, h, Bind.bind, Except.bind]

/-- C6 counterexample: the empty string is outside the 11-value status enum,
yet `get_all_merits` with an empty merit_status does not raise (Python treats the
empty string as falsy and skips the check): with an exhausted transport it
returns `.ok none`, not an error. -/
theorem C6_counterexample :
    valid_statuses.contains "" = false ∧
    get_all_merits (α := Nat) none (some "") none 100 [] = .ok none :=
  ⟨rfl, rfl⟩

/-- C6 (amended): for every truthy (non-empty) merit_status outside the 11-value
enum, get_all_merits raises the merit-status validation error identically for
every transport (so before any network call); and for every permissions list
holding a non-string or a value outside the permission enum, login_with_merit
raises a validation error identically for every transport response.  An empty
merit_status string is treated as absent and skips validation. -/
theorem C6_validation_before_network (ms : String) (tid em : Option String) (lim : Int)
    (hms : ms.isEmpty = false) (hnv : valid_statuses.contains ms = false) :
    (∀ transport : List (ListResponse Nat),
      get_all_merits tid (some ms) em lim transport = .error PyExc.meritStatusError) ∧
    (∀ (su fu ns : String) (perms : List PyVal) (org_ids : Option (List PyVal)) (p : PyVal),
      p ∈ perms → bad_perm p = true →
      ∃ e, (e = PyExc.typeError ∨ e = PyExc.requestedPermissionError) ∧
        ∀ resp : LoginResponse,
          login_with_merit su fu perms org_ids ns resp = .error e) := by
  constructor
  · intro transport
    have hnv2 : ms ∉ valid_statuses := by simpa using hnv
    simp [get_all_merits, pyTruthy, hms, hnv2]
  · intro su fu ns perms org_ids p hp hbad
    obtain ⟨e, he, hv⟩ := validate_permissions_error perms p hp hbad
    exact ⟨e, he, login_error_of_validate su fu ns perms org_ids e hv⟩

/-- Witness for C6 (amended): the unknown status "Bogus" raises the status
error with an empty transport, and a non-string permission element makes
login_with_merit fail for every response. -/
theorem C6_validation_before_network_witness :
    (get_all_merits (α := Nat) none (some "Bogus") none 5 []
      = .error PyExc.meritStatusError) ∧
    (∃ e, (e = PyExc.typeError ∨ e = PyExc.requestedPermissionError) ∧
      ∀ resp : LoginResponse,
        login_with_merit "s" "f" [PyVal.int 3] none "n" resp = .error e) :=
  ⟨(C6_validation_before_network "Bogus" none none 5 (by decide) (by decide)).1 [],
   (C6_validation_before_network "Bogus" none none 5 (by decide) (by decide)).2
      "s" "f" "n" [PyVal.int 3] none (PyVal.int 3) (by decide) (by decide)⟩

/-- C7: requesting CanViewAllStandardMeritsFromOrg with no org_ids raises the
permission validation error identically for every transport response; with
org_ids=["abc"] the call proceeds and the POSTed body's requestedPermissions
holds the scoped entry (permissionType, orgId="abc") alongside the base entry. -/
theorem C7_login_from_org_scope (su fu ns : String) :
    (∀ resp : LoginResponse,
      login_with_merit su fu [PyVal.str "CanViewAllStandardMeritsFromOrg"] none ns resp
        = .error PyExc.requestedPermissionError) ∧
    (∀ resp : LoginResponse, ∃ (body : LoginBody) (ret : Option String),
      login_with_merit su fu [PyVal.str "CanViewAllStandardMeritsFromOrg"]
          (some [PyVal.str "abc"]) ns resp = .ok (body, ret) ∧
      body.requestedPermissions
        = [⟨"CanViewAllStandardMeritsFromOrg", none⟩,
           ⟨"CanViewAllStandardMeritsFromOrg", some "abc"⟩] ∧
      ⟨"CanViewAllStandardMeritsFromOrg", some "abc"⟩ ∈ body.requestedPermissions ∧
      ⟨"CanViewAllStandardMeritsFromOrg", none⟩ ∈ body.requestedPermissions) := by
  constructor
  · intro resp
    rfl
  · intro resp
    refine ⟨⟨[⟨"CanViewAllStandardMeritsFromOrg", none⟩,
              ⟨"CanViewAllStandardMeritsFromOrg", some "abc"⟩],
             su, fu, "<3-from-merit-" ++ ns⟩, _, rfl, rfl, by simp, by simp⟩

/-- C8: `search_orgs` raises the query validation error for every query shorter
than 3 characters, identically for every transport response; for queries of
length at least 3 it proceeds to GET /orgs/search with the query as
search_string. -/
theorem C8_search_orgs (query : String) :
    (query.length < 3 → ∀ resp : SearchResponse Nat,
      search_orgs query resp = .error PyExc.searchQueryError) ∧
    (3 ≤ query.length → ∀ resp : SearchResponse Nat, ∃ items : List Nat,
      search_orgs query resp = .ok ("/orgs/search", ⟨10, query⟩, items)) := by
  constructor
  · intro h resp
    simp [search_orgs, h]
  · intro h resp
    by_cases h200 : resp.status_code = 200
    · cases hres : resp.results with
      | none =>
        exact ⟨[], by rw [search_orgs, if_neg (Nat.not_lt.mpr h)]; simp [h200, hres]⟩
      | some rs =>
        exact ⟨rs, by rw [search_orgs, if_neg (Nat.not_lt.mpr h)]; simp [h200, hres]⟩
    · exact ⟨[], by rw [search_orgs, if_neg (Nat.not_lt.mpr h)]; simp [h200]⟩

/-- Witness for C8: a two-character query fails validation, a three-character
query reaches the search endpoint. -/
theorem C8_search_orgs_witness :
    (search_orgs "ab" (⟨200, some [1]⟩ : SearchResponse Nat)
      = .error PyExc.searchQueryError) ∧
    (∃ items : List Nat, search_orgs "abc" (⟨200, some [1]⟩ : SearchResponse Nat)
      = .ok ("/orgs/search", ⟨10, "abc"⟩, items)) :=
  ⟨(C8_search_orgs "ab").1 (by decide) ⟨200, some [1]⟩,
   (C8_search_orgs "abc").2 (by decide) ⟨200, some [1]⟩⟩

/-- The sort completes whenever every title is present. -/
theorem sorted_by_title_ok_of_titles (l : List (Option String × Option String))
    (h : ∀ c ∈ l, c.2.isSome = true) :
    ∃ l2, sorted_by_title l = .ok l2 := by
  unfold sorted_by_title
  by_cases hl : l.length ≤ 1
  · rw [if_pos hl]
    exact ⟨l, rfl⟩
  · rw [if_neg hl, if_pos (List.all_eq_true.mpr h)]
    exact ⟨_, rfl⟩

/-- C9 counterexample: a 200 response whose body lacks the merittemplates field
makes `get_org_merit_template_choices` iterate over `None` and raise TypeError,
and a 200 listing of two templates without titles raises TypeError inside
`sorted`, so the method does not return None for EVERY transport behaviour. -/
theorem C9_counterexample :
    get_org_merit_template_choices ⟨200, none⟩ true = .error PyExc.typeError ∧
    get_org_merit_template_choices ⟨200, some [⟨some "a", none⟩, ⟨some "b", none⟩]⟩ true
      = .error PyExc.typeError :=
  ⟨rfl, rfl⟩

/-- C9 (amended): `get_org_merit_template_choices` returns None for every input
and every transport response whose handling completes: every non-200 response,
and every 200 response whose merittemplates list has at most one element or
carries a string title on every element.  A 200 response without the
merittemplates field raises TypeError while iterating None, a 200 listing of two
or more templates among which a title is absent raises TypeError inside
`sorted`, and in no case is the computed choices list returned. -/
theorem C9_choices_return_none (resp : TemplatesResponse) (include_none : Bool) :
    (¬ resp.status_code = 200 →
      get_org_merit_template_choices resp include_none = .ok none) ∧
    (∀ ts, resp.merittemplates = some ts → ts.length ≤ 1 →
      get_org_merit_template_choices resp include_none = .ok none) ∧
    (∀ ts, resp.merittemplates = some ts → (∀ t ∈ ts, t.title.isSome = true) →
      get_org_merit_template_choices resp include_none = .ok none) ∧
    (resp.status_code = 200 → ∀ ts, resp.merittemplates = some ts →
      2 ≤ ts.length → (∃ t ∈ ts, t.title = none) →
      get_org_merit_template_choices resp include_none = .error PyExc.typeError) ∧
    (∀ r, ¬ get_org_merit_template_choices resp include_none = .ok (some r)) := by
  refine ⟨?_, ?_, ?_, ?_, ?_⟩
  · intro h
    simp [get_org_merit_template_choices, get_all_org_merit_templates, sorted_by_title, h]
  · intro ts hts hlen
    by_cases h : resp.status_code = 200 <;>
      simp [get_org_merit_template_choices, get_all_org_merit_templates,
        sorted_by_title, h, hts, hlen]
  · intro ts hts htitle
    by_cases h : resp.status_code = 200
    · have hmap : ∀ c ∈ ts.map (fun t => (t.id, t.title)), c.2.isSome = true := by
        intro c hc
        obtain ⟨t, ht, rfl⟩ := List.mem_map.mp hc
        exact htitle t ht
      obtain ⟨l2, hl2⟩ := sorted_by_title_ok_of_titles _ hmap
      simp [get_org_merit_template_choices, get_all_org_merit_templates, h, hts, hl2]
    · simp [get_org_merit_template_choices, get_all_org_merit_templates, sorted_by_title, h]
  · intro h ts hts hlen hnone
    obtain ⟨t, ht, htnone⟩ := hnone
    have hlen2 : ¬ (ts.map (fun t => (t.id, t.title))).length ≤ 1 := by
      simp only [List.length_map]
      omega
    have hall : ¬ (ts.map (fun t => (t.id, t.title))).all (fun c => c.2.isSome) = true := by
      intro hc
      have := List.all_eq_true.mp hc (t.id, t.title) (List.mem_map.mpr ⟨t, ht, rfl⟩)
      rw [htnone] at this
      exact Bool.noConfusion this
    have hsort : sorted_by_title (ts.map (fun t => (t.id, t.title)))
        = .error PyExc.typeError := by
      unfold sorted_by_title
      rw [if_neg hlen2, if_neg hall]
    simp [get_org_merit_template_choices, get_all_org_merit_templates, h, hts, hsort]
  · intro r
    cases h : get_all_org_merit_templates resp with
    | none => simp [get_org_merit_template_choices, h]
    | some templates =>
      cases hs : sorted_by_title (templates.map (fun t => (t.id, t.title))) with
      | error e => simp [get_org_merit_template_choices, h, hs]
      | ok l2 => simp [get_org_merit_template_choices, h, hs]

/-- Witness for C9 (amended): a 500 template listing still makes the method
return None. -/
theorem C9_choices_return_none_witness :
    get_org_merit_template_choices ⟨500, none⟩ true = .ok none :=
  (C9_choices_return_none ⟨500, none⟩ true).1 (by decide)

/-- C10: `get_template_pending_merits` calls `self.get_all_org_merits`, a name
defined nowhere on Org or Merit (the listing method is `get_all_merits`), so
every invocation raises AttributeError before any request is made and the
pending-merit list is never returned. -/
theorem C10_pending_merits_missing_method (template_id : String) :
    get_template_pending_merits template_id = .error PyExc.attributeError ∧
    org_attributes.contains "get_all_org_merits" = false ∧
    org_attributes.contains "get_all_merits" = true :=
  ⟨rfl, by decide, by decide⟩

end Merit
